import Mathlib

/-!
# Verification of the AAS document store and DPP projector (`src/api/main.py`)

Shallow embedding of the core of the service: the JSON data model, the
file-backed document store (`default_aas`, `load_aas`, `save_aas`,
`put_submodel`), the unit normalization (`normalize_units`), the pydantic
models (`Nameplate`, `TechnicalData`, `AASModel`) and the DPP projection
(`build_dpp_from_aas`), together with theorems settling the spec's claims.

Modelling conventions:
* A JSON value is the inductive `Json`; numbers are embedded as `Int`
  (no claim involves floating point).
* Python dicts are insertion-ordered association lists without duplicate
  keys; `dictSet` models `d[k] = v` (update in place, append if new).
* The backing file is `FileContent`: absent, present-but-not-JSON
  (`json.load` raises `JSONDecodeError`), or a parsed JSON value.
  `json.dump` of a dict always produces text that `json.load` reads back
  to the same value, so serialization is modelled at the JSON level.
* Python exceptions become explicit error values: `PyError` for the load
  path, `ApiError` for the request handlers.
* Python's `\s` regex class and `str.strip` are modelled on their ASCII
  whitespace subset, which covers every string the code normalizes.
-/

/-- A JSON value, as produced by `json.load`. -/
inductive Json where
  | null
  | bool (b : Bool)
  | num (n : Int)
  | str (s : String)
  | arr (elems : List Json)
  | obj (fields : List (String × Json))
  deriving Repr

/-- Python `isinstance(payload, dict)`. -/
def Json.isObj : Json → Bool
  | Json.obj _ => true
  | _ => false

/-- Pydantic model `TechnicalData`: `power: Optional[str] = None`,
`weight: Optional[str] = None`. -/
structure TechnicalData where
  power : Option String
  weight : Option String
  deriving Repr, DecidableEq

/-- Pydantic model `Nameplate`: three required strings with `min_length=1`. -/
structure Nameplate where
  manufacturer : String
  model : String
  serialNumber : String
  deriving Repr, DecidableEq

/-- Pydantic model `AASModel`: `id: str`,
`submodels: Dict[str, Dict[str, Any]]`. -/
structure AASModel where
  id : String
  submodels : List (String × List (String × Json))
  deriving Repr

/-! ## String utilities modelling `str.replace`, `re.sub(r"\s+", " ", _)`
and `str.strip` -/

/-- ASCII whitespace, the relevant subset of Python's `\s` / `str.strip`. -/
def isPySpace (c : Char) : Bool :=
  c = ' ' || c = '\t' || c = '\n' || c = '\r' || c = '\x0b' || c = '\x0c'

/-- Replace all non-overlapping occurrences of `pat` (scanning left to
right) by `rep`, with fuel; matches Python `str.replace` for non-empty
`pat`, the only case the code uses. -/
def replaceAux (pat rep : List Char) : Nat → List Char → List Char
  | 0, s => s
  | _ + 1, [] => []
  | fuel + 1, c :: cs =>
    if pat.isPrefixOf (c :: cs) then
      rep ++ replaceAux pat rep fuel (List.drop (pat.length - 1) cs)
    else
      c :: replaceAux pat rep fuel cs

/-- Python `s.replace(pat, rep)` for non-empty `pat`. -/
def pyReplace (s pat rep : String) : String :=
  ⟨replaceAux pat.data rep.data s.data.length s.data⟩

/-- One pass of `re.sub(r"\s+", " ", s)`: each maximal whitespace run
becomes a single space.  The flag records whether the previous character
was whitespace. -/
def collapseWsAux : Bool → List Char → List Char
  | _, [] => []
  | prevWs, c :: cs =>
    if isPySpace c then
      if prevWs then collapseWsAux true cs
      else ' ' :: collapseWsAux true cs
    else
      c :: collapseWsAux false cs

/-- Python `re.sub(r"\s+", " ", s)`. -/
def pyCollapseWs (s : String) : String :=
  ⟨collapseWsAux false s.data⟩

/-- Python `s.strip()`. -/
def pyStrip (s : String) : String :=
  ⟨((s.data.dropWhile isPySpace).reverse.dropWhile isPySpace).reverse⟩

/-- Python truthiness of an `Optional[str]`: `None` and `""` are falsy. -/
def pyTruthyStr : Option String → Bool
  | none => false
  | some s => !s.isEmpty

/-- `normalize_units` from `src/api/main.py` lines 96-105: on a truthy
`power`, chain `.replace("Watt", "W").replace("watts", "W")
.replace("Watts", "W")`, then collapse whitespace and strip; on a truthy
`weight`, chain `.replace("kgs", "kg").replace("KG", "kg")`, then collapse
whitespace and strip.  Falsy fields pass through unchanged. -/
def normalize_units (tech : TechnicalData) : TechnicalData :=
  let p := tech.power
  let w := tech.weight
  let p2 : Option String :=
    if pyTruthyStr p then
      match p with
      | some s =>
          some (pyStrip (pyCollapseWs
            (pyReplace (pyReplace (pyReplace s "Watt" "W") "watts" "W") "Watts" "W")))
      | none => none
    else p
  let w2 : Option String :=
    if pyTruthyStr w then
      match w with
      | some s =>
          some (pyStrip (pyCollapseWs (pyReplace (pyReplace s "kgs" "kg") "KG" "kg")))
      | none => none
    else w
  { power := p2, weight := w2 }

example : normalize_units { power := some "500 Watts", weight := some "12KG" }
    = { power := some "500 Ws", weight := some "12kg" } := by decide

/-! ## Python dict operations on insertion-ordered association lists -/

/-- Python `d[k] = v`: update the first binding of `k` in place (keeping
its position), append a new binding if `k` is absent. -/
def dictSet {α : Type} : List (String × α) → String → α → List (String × α)
  | [], k, v => [(k, v)]
  | (k2, v2) :: rest, k, v =>
    if k2 = k then (k, v) :: rest else (k2, v2) :: dictSet rest k v

/-- Python `d.get(k, default)`. -/
def dictGet {α : Type} (l : List (String × α)) (k : String) (d : α) : α :=
  (List.lookup k l).getD d

/-! ## Serialization: `model_dump()` followed by `json.dump` -/

/-- `Optional[str]` dumped as a JSON value (`None` becomes `null`). -/
def optStrJson : Option String → Json
  | none => Json.null
  | some s => Json.str s

/-- `Nameplate.model_dump()` in pydantic field order. -/
def Nameplate.dump (np : Nameplate) : List (String × Json) :=
  [("manufacturer", Json.str np.manufacturer),
   ("model", Json.str np.model),
   ("serialNumber", Json.str np.serialNumber)]

/-- `TechnicalData.model_dump()` in pydantic field order. -/
def TechnicalData.dump (t : TechnicalData) : List (String × Json) :=
  [("power", optStrJson t.power), ("weight", optStrJson t.weight)]

/-- `AASModel.model_dump()` as a JSON value, the content `save_aas` writes. -/
def aasToJson (a : AASModel) : Json :=
  Json.obj
    [("id", Json.str a.id),
     ("submodels", Json.obj (a.submodels.map fun p => (p.1, Json.obj p.2)))]

/-- `default_aas` from `src/api/main.py` lines 56-67. -/
def default_aas : AASModel :=
  { id := "1",
    submodels :=
      [("nameplate",
        [("manufacturer", Json.str "Desconhecido"),
         ("model", Json.str "Desconhecido"),
         ("serialNumber", Json.str "SN-0000")]),
       ("technicalData", [("power", Json.null), ("weight", Json.null)])] }

/-! ## The backing file and the load/save path -/

/-- State of the backing file `aas_1.json`: absent, present but not
syntactically valid JSON (`json.load` raises `JSONDecodeError`), or
present with a parsed JSON value. -/
inductive FileContent where
  | absent
  | notJson
  | json (j : Json)
  deriving Repr

/-- Python exceptions the load path can raise to its caller. -/
inductive PyError where
  | jsonDecode
  | typeErr
  | fileNotFound
  deriving Repr, DecidableEq

/-- Outcome of `AASModel(**data)`: `typeErr` when `data` is not a dict
(`TypeError` from `**`-unpacking, uncaught), `validation` when pydantic
raises `ValidationError` (caught by `load_aas`). -/
inductive ParseErr where
  | typeErr
  | validation
  deriving Repr, DecidableEq

/-- Parse the values of the `submodels` dict: each must itself be a JSON
object (`Dict[str, Dict[str, Any]]`), else pydantic validation fails. -/
def parseSubmodels : List (String × Json) → Option (List (String × List (String × Json)))
  | [] => some []
  | (n, Json.obj m) :: rest => (parseSubmodels rest).map fun r => (n, m) :: r
  | _ => none

/-- Pydantic validation of `AASModel` fields from a dict: `id` must be a
string (pydantic v2 does not coerce), `submodels` must be a dict of dicts;
extra keys are ignored. -/
def parseAASFields (fields : List (String × Json)) : Except ParseErr AASModel :=
  match List.lookup "id" fields with
  | some (Json.str i) =>
    match List.lookup "submodels" fields with
    | some (Json.obj sms) =>
      match parseSubmodels sms with
      | some l => Except.ok { id := i, submodels := l }
      | none => Except.error ParseErr.validation
    | _ => Except.error ParseErr.validation
  | _ => Except.error ParseErr.validation

/-- `AASModel(**data)` on a loaded JSON value. -/
def parseAASJson : Json → Except ParseErr AASModel
  | Json.obj fields => parseAASFields fields
  | _ => Except.error ParseErr.typeErr

/-- `save_aas` from lines 82-84: overwrite the file with the record's
JSON dump. -/
def save_aas (a : AASModel) : FileContent :=
  FileContent.json (aasToJson a)

/-- Reading and parsing the backing file: `json.load` then
`AASModel(**data)` with `ValidationError` recovered to a regenerated
default.  Returns the record and the resulting file state. -/
def readAndParse : FileContent → Except PyError (AASModel × FileContent)
  | FileContent.absent => Except.error PyError.fileNotFound
  | FileContent.notJson => Except.error PyError.jsonDecode
  | FileContent.json j =>
    match parseAASJson j with
    | Except.ok a => Except.ok (a, FileContent.json j)
    | Except.error ParseErr.typeErr => Except.error PyError.typeErr
    | Except.error ParseErr.validation =>
      let a := default_aas
      Except.ok (a, save_aas a)

/-- `load_aas` from lines 69-80: create the file with the default record
if absent, then read and parse it, regenerating the default on pydantic
`ValidationError`.  `JSONDecodeError` and `TypeError` are not caught. -/
def load_aas : FileContent → Except PyError (AASModel × FileContent)
  | FileContent.absent => readAndParse (save_aas default_aas)
  | f => readAndParse f

/-! ## Request handlers -/

/-- Errors surfaced by the request handlers: `notFound` and `badRequest`
are the two `HTTPException`s raised in the handlers; `validationError` and
`typeError` are exceptions escaping from pydantic model construction;
`loadError` wraps an exception escaping from `load_aas`. -/
inductive ApiError where
  | notFound
  | badRequest
  | validationError
  | typeError
  | loadError (e : PyError)
  deriving Repr, DecidableEq

/-- One required `str = Field(..., min_length=1)` field: present, a
string and non-empty, else pydantic validation fails. -/
def reqStrField : Option Json → Except ApiError String
  | some (Json.str s) =>
    if s = "" then Except.error ApiError.validationError else Except.ok s
  | _ => Except.error ApiError.validationError

/-- `Nameplate(**payload)`: required string fields with `min_length=1`;
a non-dict payload raises `TypeError`, a missing, empty or non-string
field raises `ValidationError`; extra keys are ignored. -/
def parseNameplate : Json → Except ApiError Nameplate
  | Json.obj fields =>
    match reqStrField (List.lookup "manufacturer" fields) with
    | Except.error e => Except.error e
    | Except.ok m =>
      match reqStrField (List.lookup "model" fields) with
      | Except.error e => Except.error e
      | Except.ok mo =>
        match reqStrField (List.lookup "serialNumber" fields) with
        | Except.error e => Except.error e
        | Except.ok sn =>
          Except.ok { manufacturer := m, model := mo, serialNumber := sn }
  | _ => Except.error ApiError.typeError

/-- `TechnicalData(**payload)`: both fields optional strings; an absent
or null field becomes `None`; a non-string, non-null value raises
`ValidationError`; extra keys are ignored. -/
def parseOptStrField : Option Json → Except ApiError (Option String)
  | none => Except.ok none
  | some Json.null => Except.ok none
  | some (Json.str s) => Except.ok (some s)
  | some _ => Except.error ApiError.validationError

/-- `TechnicalData(**payload)` on a JSON payload. -/
def parseTechnicalData : Json → Except ApiError TechnicalData
  | Json.obj fields =>
    match parseOptStrField (List.lookup "power" fields),
        parseOptStrField (List.lookup "weight" fields) with
    | Except.ok p, Except.ok w => Except.ok { power := p, weight := w }
    | _, _ => Except.error ApiError.validationError
  | _ => Except.error ApiError.typeError

/-- The submodel dict written for a given name and payload: `nameplate`
is validated, `technicalData` is validated and unit-normalized, any other
name stores the payload verbatim provided it is a JSON object. -/
def submodelToStore (name : String) (payload : Json) : Except ApiError (List (String × Json)) :=
  if name = "nameplate" then
    (parseNameplate payload).map Nameplate.dump
  else if name = "technicalData" then
    (parseTechnicalData payload).map fun t => (normalize_units t).dump
  else
    match payload with
    | Json.obj fields => Except.ok fields
    | _ => Except.error ApiError.badRequest

/-- `put_submodel` from lines 117-136: load, check the id, validate or
pass through the payload by submodel name, store it under that name and
save.  Returns the acknowledged submodel name (the handler's
`{"ok": True, "submodel": name}`) and the resulting file state. -/
def put_submodel (file : FileContent) (asset_id name : String) (payload : Json) :
    Except ApiError String × FileContent :=
  match load_aas file with
  | Except.error e => (Except.error (ApiError.loadError e), file)
  | Except.ok (aas, file1) =>
    if aas.id ≠ asset_id then (Except.error ApiError.notFound, file1)
    else
      match submodelToStore name payload with
      | Except.error e => (Except.error e, file1)
      | Except.ok sm =>
        let aas2 : AASModel := { aas with submodels := dictSet aas.submodels name sm }
        (Except.ok name, save_aas aas2)

/-- `get_aas` from lines 110-115: load, check the id, return the record's
JSON dump, plus the resulting file state. -/
def get_aas (file : FileContent) (asset_id : String) : Except ApiError Json × FileContent :=
  match load_aas file with
  | Except.error e => (Except.error (ApiError.loadError e), file)
  | Except.ok (aas, file1) =>
    if aas.id ≠ asset_id then (Except.error ApiError.notFound, file1)
    else (Except.ok (aasToJson aas), file1)

/-! ## DPP projection -/

/-- `d.get(k)` on a submodel dict, `None` rendered as JSON `null`. -/
def jsonGet (m : List (String × Json)) (k : String) : Json :=
  (List.lookup k m).getD Json.null

/-- Top-level field of a JSON object (`null` when absent or not an
object); used to state properties of the projected DPP document. -/
def Json.getField (j : Json) (k : String) : Json :=
  match j with
  | Json.obj fields => jsonGet fields k
  | _ => Json.null

/-- `build_dpp_from_aas` from lines 141-163, with the module-level
`PUBLIC_BASE` configuration value passed explicitly. -/
def build_dpp_from_aas (publicBase : String) (aas : AASModel) : Json :=
  let nameplate := dictGet aas.submodels "nameplate" []
  let tech := dictGet aas.submodels "technicalData" []
  Json.obj
    [("productId", Json.str aas.id),
     ("nameplate", Json.obj
       [("manufacturer", jsonGet nameplate "manufacturer"),
        ("model", jsonGet nameplate "model"),
        ("serialNumber", jsonGet nameplate "serialNumber")]),
     ("technicalData", Json.obj
       [("power", jsonGet tech "power"),
        ("weight", jsonGet tech "weight")]),
     ("links", Json.obj
       [("aas", Json.str (publicBase ++ "/aas/" ++ aas.id)),
        ("self", Json.str (publicBase ++ "/dpp/" ++ aas.id))]),
     ("meta", Json.obj [("schema", Json.str "DPP-minimal-v0")])]

/-- `get_dpp` from lines 165-170: load, check the id, project. -/
def get_dpp (file : FileContent) (publicBase asset_id : String) :
    Except ApiError Json × FileContent :=
  match load_aas file with
  | Except.error e => (Except.error (ApiError.loadError e), file)
  | Except.ok (aas, file1) =>
    if aas.id ≠ asset_id then (Except.error ApiError.notFound, file1)
    else (Except.ok (build_dpp_from_aas publicBase aas), file1)

/-! ## Helper lemmas -/

/-- Serializing the `submodels` dict and parsing it back is the identity. -/
theorem parseSubmodels_map (l : List (String × List (String × Json))) :
    parseSubmodels (l.map fun p => (p.1, Json.obj p.2)) = some l := by
  induction l with
  | nil => rfl
  | cons p rest ih => cases p; simp [parseSubmodels, ih]

/-- `AASModel(**json.load(dump))` recovers the dumped record exactly. -/
theorem parseAASJson_aasToJson (a : AASModel) : parseAASJson (aasToJson a) = Except.ok a := by
  cases a with
  | mk i sms =>
    simp [aasToJson, parseAASJson, parseAASFields, List.lookup, parseSubmodels_map]

/-- `load_aas` immediately after `save_aas a` returns `a` and leaves the
file as `save_aas a` wrote it. -/
theorem load_aas_save_aas (a : AASModel) :
    load_aas (save_aas a) = Except.ok (a, save_aas a) := by
  simp [load_aas, save_aas, readAndParse, parseAASJson_aasToJson]

/-- After `dictSet l k v`, looking up `k` yields `v`. -/
theorem lookup_dictSet_self {α : Type} (l : List (String × α)) (k : String) (v : α) :
    List.lookup k (dictSet l k v) = some v := by
  induction l with
  | nil => simp [dictSet, List.lookup]
  | cons p rest ih =>
    cases p with
    | mk k2 v2 =>
      by_cases hk : k2 = k
      · simp [dictSet, hk, List.lookup]
      · have hb : (k == k2) = false := beq_eq_false_iff_ne.mpr (Ne.symm hk)
        simp [dictSet, hk, List.lookup, hb, ih]

/-- `dictSet l k v` leaves every other key's binding unchanged. -/
theorem lookup_dictSet_ne {α : Type} (l : List (String × α)) (k n : String) (v : α)
    (hn : n ≠ k) : List.lookup n (dictSet l k v) = List.lookup n l := by
  have hb : (n == k) = false := beq_eq_false_iff_ne.mpr hn
  induction l with
  | nil => simp [dictSet, List.lookup, hb]
  | cons p rest ih =>
    cases p with
    | mk k2 v2 =>
      by_cases hk : k2 = k
      · subst hk
        simp [dictSet, List.lookup, hb]
      · simp [dictSet, hk, List.lookup, ih]

/-- Pydantic validation of `AASModel` from a dict raises only
`ValidationError`, never `TypeError`. -/
theorem parseAASFields_ne_typeErr (fields : List (String × Json)) :
    parseAASFields fields ≠ Except.error ParseErr.typeErr := by
  unfold parseAASFields
  split <;> try simp
  split <;> try simp
  split <;> simp

/-! ## Claims -/

/-- C1: evaluating `put_submodel` at the claim's own example:
`putSubmodel("1", "technicalData", {power: "500 Watts", weight: "12KG"})`
succeeds, but the persisted `power` is `"500 Ws"`, not `"500 W"`: the
chain `.replace("Watt", "W")` runs first and turns `"Watts"` into `"Ws"`,
so the subsequent `.replace("Watts", "W")` written in the source can
never match. -/
theorem c1_watts_replacement_bug :
    put_submodel (save_aas default_aas) "1" "technicalData"
        (Json.obj [("power", Json.str "500 Watts"), ("weight", Json.str "12KG")])
      = (Except.ok "technicalData",
         save_aas
           { id := "1",
             submodels :=
               [("nameplate",
                 [("manufacturer", Json.str "Desconhecido"),
                  ("model", Json.str "Desconhecido"),
                  ("serialNumber", Json.str "SN-0000")]),
                ("technicalData",
                 [("power", Json.str "500 Ws"), ("weight", Json.str "12kg")])] })
      ∧ "500 Ws" ≠ "500 W" := by
  exact ⟨rfl, by decide⟩

/-- C2 counterexample: `load()` on a missing backing file returns a record
whose nameplate `manufacturer` is `"Desconhecido"`, not `"Unknown"` as the
claim states. -/
theorem c2_counterexample :
    (load_aas FileContent.absent).map
        (fun r => List.lookup "manufacturer" (dictGet r.1.submodels "nameplate" []))
      = Except.ok (some (Json.str "Desconhecido"))
      ∧ Json.str "Desconhecido" ≠ Json.str "Unknown" := by
  exact ⟨rfl, by simp⟩

/-- C2 (amended): when the backing file is absent, `load()` synthesizes
the default record — id `"1"`, nameplate
`{manufacturer: "Desconhecido", model: "Desconhecido",
serialNumber: "SN-0000"}`, technicalData `{power: null, weight: null}` —
persists it and returns it, the new file content being exactly that
record's JSON dump. -/
theorem c2_load_absent_creates_default :
    load_aas FileContent.absent
      = Except.ok
          ({ id := "1",
             submodels :=
               [("nameplate",
                 [("manufacturer", Json.str "Desconhecido"),
                  ("model", Json.str "Desconhecido"),
                  ("serialNumber", Json.str "SN-0000")]),
                ("technicalData", [("power", Json.null), ("weight", Json.null)])] },
           FileContent.json (Json.obj
             [("id", Json.str "1"),
              ("submodels", Json.obj
                [("nameplate", Json.obj
                  [("manufacturer", Json.str "Desconhecido"),
                   ("model", Json.str "Desconhecido"),
                   ("serialNumber", Json.str "SN-0000")]),
                 ("technicalData", Json.obj
                   [("power", Json.null), ("weight", Json.null)])])])) := rfl

/-- C3 counterexample: a backing file that is present but not
syntactically valid JSON makes `load()` raise `json.JSONDecodeError` to
the caller (only pydantic `ValidationError` is caught), contradicting the
claim that no non-conforming content raises. -/
theorem c3_counterexample :
    load_aas FileContent.notJson = Except.error PyError.jsonDecode := rfl

/-- C3 (amended): for backing-file content that is syntactically valid
JSON whose top level is an object, `load()` never raises; when that
content fails record-shape validation (e.g. missing `id` or `submodels`
of wrong type), it is discarded and the default record is regenerated,
persisted and returned.  Syntactically invalid JSON raises. -/
theorem c3_object_content_self_heals (fields : List (String × Json)) :
    (∃ a f1, load_aas (FileContent.json (Json.obj fields)) = Except.ok (a, f1))
    ∧ (parseAASFields fields = Except.error ParseErr.validation →
        load_aas (FileContent.json (Json.obj fields))
          = Except.ok (default_aas, save_aas default_aas)) := by
  have hload : load_aas (FileContent.json (Json.obj fields))
      = readAndParse (FileContent.json (Json.obj fields)) := rfl
  cases h : parseAASFields fields with
  | ok a =>
    refine ⟨⟨a, FileContent.json (Json.obj fields), ?_⟩, ?_⟩
    · rw [hload]; simp [readAndParse, parseAASJson, h]
    · intro h2
      exact absurd h2 (by simp)
  | error e =>
    cases e with
    | typeErr => exact absurd h (parseAASFields_ne_typeErr fields)
    | validation =>
      refine ⟨⟨default_aas, save_aas default_aas, ?_⟩, fun _ => ?_⟩ <;>
        · rw [hload]
          simp [readAndParse, parseAASJson, h]

/-- C3 witness: a backing file holding the JSON object `{}` (no `id`)
recovers to the default record without raising. -/
theorem c3_object_content_self_heals_witness :
    load_aas (FileContent.json (Json.obj []))
      = Except.ok (default_aas, save_aas default_aas) :=
  (c3_object_content_self_heals []).2 rfl

/-- `Nameplate(**payload)` raises `ValidationError` whenever a required
field is missing or bound to the empty string. -/
theorem parseNameplate_reject (fields : List (String × Json))
    (h : List.lookup "manufacturer" fields = some (Json.str "")
       ∨ List.lookup "model" fields = some (Json.str "")
       ∨ List.lookup "serialNumber" fields = some (Json.str "")
       ∨ List.lookup "manufacturer" fields = none
       ∨ List.lookup "model" fields = none
       ∨ List.lookup "serialNumber" fields = none) :
    parseNameplate (Json.obj fields) = Except.error ApiError.validationError := by
  have hr : ∀ v : Option Json, v = some (Json.str "") ∨ v = none →
      reqStrField v = Except.error ApiError.validationError := by
    rintro v (rfl | rfl) <;> simp [reqStrField]
  have hre : ∀ (v : Option Json) (e : ApiError), reqStrField v = Except.error e →
      e = ApiError.validationError := by
    intro v e h2
    unfold reqStrField at h2
    split at h2
    · split at h2 <;> simp_all
    · simp_all
  rcases h with h | h | h | h | h | h
  · simp [parseNameplate, hr _ (Or.inl h)]
  · cases h1 : reqStrField (List.lookup "manufacturer" fields) with
    | error a => simp [parseNameplate, h1, hre _ _ h1]
    | ok m => simp [parseNameplate, h1, hr _ (Or.inl h)]
  · cases h1 : reqStrField (List.lookup "manufacturer" fields) with
    | error a => simp [parseNameplate, h1, hre _ _ h1]
    | ok m =>
      cases h2 : reqStrField (List.lookup "model" fields) with
      | error a => simp [parseNameplate, h1, h2, hre _ _ h2]
      | ok mo => simp [parseNameplate, h1, h2, hr _ (Or.inl h)]
  · simp [parseNameplate, hr _ (Or.inr h)]
  · cases h1 : reqStrField (List.lookup "manufacturer" fields) with
    | error a => simp [parseNameplate, h1, hre _ _ h1]
    | ok m => simp [parseNameplate, h1, hr _ (Or.inr h)]
  · cases h1 : reqStrField (List.lookup "manufacturer" fields) with
    | error a => simp [parseNameplate, h1, hre _ _ h1]
    | ok m =>
      cases h2 : reqStrField (List.lookup "model" fields) with
      | error a => simp [parseNameplate, h1, h2, hre _ _ h2]
      | ok mo => simp [parseNameplate, h1, h2, hr _ (Or.inr h)]

/-- C4: a `nameplate` write whose payload omits a required field or binds
it to the empty string fails with `ValidationError` and leaves the stored
record (and the backing file) completely unchanged. -/
theorem c4_nameplate_validation_no_mutation (R : AASModel) (fields : List (String × Json))
    (h : List.lookup "manufacturer" fields = some (Json.str "")
       ∨ List.lookup "model" fields = some (Json.str "")
       ∨ List.lookup "serialNumber" fields = some (Json.str "")
       ∨ List.lookup "manufacturer" fields = none
       ∨ List.lookup "model" fields = none
       ∨ List.lookup "serialNumber" fields = none) :
    put_submodel (save_aas R) R.id "nameplate" (Json.obj fields)
      = (Except.error ApiError.validationError, save_aas R) := by
  have hp := parseNameplate_reject fields h
  simp [put_submodel, load_aas_save_aas, submodelToStore, hp, Except.map]

/-- C4 witness: the spec's own example
`putSubmodel("1", "nameplate", {manufacturer: "", model: "X",
serialNumber: "Y"})` is rejected with `ValidationError` and the stored
default record is untouched. -/
theorem c4_nameplate_validation_no_mutation_witness :
    put_submodel (save_aas default_aas) "1" "nameplate"
        (Json.obj [("manufacturer", Json.str ""), ("model", Json.str "X"),
                   ("serialNumber", Json.str "Y")])
      = (Except.error ApiError.validationError, save_aas default_aas) :=
  c4_nameplate_validation_no_mutation default_aas
    [("manufacturer", Json.str ""), ("model", Json.str "X"), ("serialNumber", Json.str "Y")]
    (Or.inl rfl)

/-- C5: for every AAS record R, `save(R)` followed by `load()` returns a
record equal to R exactly — id and the full submodels mapping, including
opaque pass-through submodels, are preserved — and leaves the file as
`save` wrote it. -/
theorem c5_save_load_roundtrip (R : AASModel) :
    load_aas (save_aas R) = Except.ok (R, save_aas R) :=
  load_aas_save_aas R

/-- C6: for a submodel name other than `nameplate` and `technicalData`,
a JSON-object payload is stored verbatim and unvalidated under that name
(so a subsequent load finds it unchanged), while a non-object payload is
rejected with `BadRequestError` and nothing is written. -/
theorem c6_opaque_submodel_passthrough (R : AASModel) (name : String)
    (fields : List (String × Json)) (payload : Json)
    (h1 : name ≠ "nameplate") (h2 : name ≠ "technicalData")
    (h3 : payload.isObj = false) :
    (put_submodel (save_aas R) R.id name (Json.obj fields)
       = (Except.ok name,
          save_aas { id := R.id, submodels := dictSet R.submodels name fields })
     ∧ List.lookup name (dictSet R.submodels name fields) = some fields)
    ∧ put_submodel (save_aas R) R.id name payload
       = (Except.error ApiError.badRequest, save_aas R) := by
  refine ⟨⟨?_, lookup_dictSet_self R.submodels name fields⟩, ?_⟩
  · simp [put_submodel, load_aas_save_aas, submodelToStore, h1, h2]
  · cases payload <;>
      simp_all [put_submodel, load_aas_save_aas, submodelToStore, h1, h2, Json.isObj]

/-- C6 witness: `putSubmodel("1", "customSubmodel", {"foo": "bar"})`
stores the payload verbatim, and a string payload for the same name is
rejected with `BadRequestError`. -/
theorem c6_opaque_submodel_passthrough_witness :
    (put_submodel (save_aas default_aas) "1" "customSubmodel"
         (Json.obj [("foo", Json.str "bar")])
       = (Except.ok "customSubmodel",
          save_aas { id := "1",
                     submodels := dictSet default_aas.submodels "customSubmodel"
                       [("foo", Json.str "bar")] })
     ∧ List.lookup "customSubmodel"
         (dictSet default_aas.submodels "customSubmodel" [("foo", Json.str "bar")])
       = some [("foo", Json.str "bar")])
    ∧ put_submodel (save_aas default_aas) "1" "customSubmodel" (Json.str "notAnObject")
       = (Except.error ApiError.badRequest, save_aas default_aas) :=
  c6_opaque_submodel_passthrough default_aas "customSubmodel"
    [("foo", Json.str "bar")] (Json.str "notAnObject")
    (by decide) (by decide) rfl

/-- C7: every read (`get_aas`, `get_dpp`) and every write
(`put_submodel`) for an id different from the stored record's id fails
with `NotFoundError`, and the write leaves the stored record unchanged. -/
theorem c7_id_mismatch_not_found (R : AASModel) (asset_id base name : String)
    (payload : Json) (h : asset_id ≠ R.id) :
    get_aas (save_aas R) asset_id = (Except.error ApiError.notFound, save_aas R)
    ∧ get_dpp (save_aas R) base asset_id = (Except.error ApiError.notFound, save_aas R)
    ∧ put_submodel (save_aas R) asset_id name payload
        = (Except.error ApiError.notFound, save_aas R) := by
  have h2 : R.id ≠ asset_id := Ne.symm h
  refine ⟨?_, ?_, ?_⟩ <;>
    simp [get_aas, get_dpp, put_submodel, load_aas_save_aas, h2]

/-- C7 witness: requesting id `"2"` against the stored default record
(id `"1"`) fails with `NotFoundError` on all three operations. -/
theorem c7_id_mismatch_not_found_witness :
    get_aas (save_aas default_aas) "2" = (Except.error ApiError.notFound, save_aas default_aas)
    ∧ get_dpp (save_aas default_aas) "http://x" "2"
        = (Except.error ApiError.notFound, save_aas default_aas)
    ∧ put_submodel (save_aas default_aas) "2" "nameplate" Json.null
        = (Except.error ApiError.notFound, save_aas default_aas) :=
  c7_id_mismatch_not_found default_aas "2" "http://x" "nameplate" Json.null (by decide)

/-- C8: the projection stamps `productId` with the record's id,
`meta.schema` with the fixed tag `"DPP-minimal-v0"`, and builds
`links.aas = "{publicBaseUrl}/aas/{id}"` and
`links.self = "{publicBaseUrl}/dpp/{id}"`; in particular any record with
id `"1"` projected against base `"http://x"` gets links
`{aas: "http://x/aas/1", self: "http://x/dpp/1"}`. -/
theorem c8_dpp_links_and_meta (base : String) (R : AASModel)
    (sms : List (String × List (String × Json))) :
    (build_dpp_from_aas base R).getField "links"
        = Json.obj [("aas", Json.str (base ++ "/aas/" ++ R.id)),
                    ("self", Json.str (base ++ "/dpp/" ++ R.id))]
    ∧ (build_dpp_from_aas base R).getField "productId" = Json.str R.id
    ∧ (build_dpp_from_aas base R).getField "meta"
        = Json.obj [("schema", Json.str "DPP-minimal-v0")]
    ∧ (build_dpp_from_aas "http://x" { id := "1", submodels := sms }).getField "links"
        = Json.obj [("aas", Json.str "http://x/aas/1"),
                    ("self", Json.str "http://x/dpp/1")] :=
  ⟨rfl, rfl, rfl, rfl⟩

/-- C9 counterexample: projecting a record with no submodels yields a
`nameplate` section equal to
`{manufacturer: null, model: null, serialNumber: null}`, which is not the
empty mapping the claim states. -/
theorem c9_counterexample :
    (build_dpp_from_aas "http://x" { id := "1", submodels := [] }).getField "nameplate"
      = Json.obj [("manufacturer", Json.null), ("model", Json.null),
                  ("serialNumber", Json.null)]
    ∧ Json.obj [("manufacturer", Json.null), ("model", Json.null),
                ("serialNumber", Json.null)]
        ≠ Json.obj [] := by
  exact ⟨rfl, by simp⟩

/-- C9 (amended): the projection is a total function, and a missing
`nameplate` or `technicalData` submodel is treated as an empty source
mapping, so the corresponding DPP section is a mapping with every field
`null` (rather than an error or an empty mapping). -/
theorem c9_missing_submodels_project_to_nulls (base : String) (R : AASModel)
    (h1 : List.lookup "nameplate" R.submodels = none)
    (h2 : List.lookup "technicalData" R.submodels = none) :
    (build_dpp_from_aas base R).getField "nameplate"
      = Json.obj [("manufacturer", Json.null), ("model", Json.null),
                  ("serialNumber", Json.null)]
    ∧ (build_dpp_from_aas base R).getField "technicalData"
      = Json.obj [("power", Json.null), ("weight", Json.null)] := by
  constructor <;>
    simp [build_dpp_from_aas, Json.getField, jsonGet, dictGet, h1, h2, List.lookup]

/-- C9 witness: projecting the record `{id: "1", submodels: {}}`. -/
theorem c9_missing_submodels_project_to_nulls_witness :
    (build_dpp_from_aas "http://x" { id := "1", submodels := [] }).getField "nameplate"
      = Json.obj [("manufacturer", Json.null), ("model", Json.null),
                  ("serialNumber", Json.null)]
    ∧ (build_dpp_from_aas "http://x" { id := "1", submodels := [] }).getField "technicalData"
      = Json.obj [("power", Json.null), ("weight", Json.null)] :=
  c9_missing_submodels_project_to_nulls "http://x" { id := "1", submodels := [] } rfl rfl

/-- C10: every successful `put_submodel` against a stored record writes a
record with the same id whose submodels differ from the old ones at most
at the written name — every other submodel's binding is unchanged. -/
theorem c10_put_submodel_frame (R : AASModel) (asset_id name : String) (payload : Json)
    (ack : String) (newfile : FileContent)
    (h : put_submodel (save_aas R) asset_id name payload = (Except.ok ack, newfile)) :
    ∃ A : AASModel, newfile = save_aas A ∧ A.id = R.id
      ∧ ∀ n, n ≠ name → List.lookup n A.submodels = List.lookup n R.submodels := by
  rw [put_submodel, load_aas_save_aas] at h
  by_cases hid : R.id = asset_id
  · simp only [hid, ne_eq, not_true_eq_false, if_false, ite_false] at h
    cases hsm : submodelToStore name payload with
    | error e => rw [hsm] at h; simp at h
    | ok sm =>
      rw [hsm] at h
      simp only [Prod.mk.injEq] at h
      refine ⟨{ id := asset_id, submodels := dictSet R.submodels name sm },
        h.2.symm, hid.symm, ?_⟩
      intro n hn
      exact lookup_dictSet_ne R.submodels name n sm hn
  · simp [hid] at h

/-- C10 witness: writing `customSubmodel` to the stored default record
frames out the id and the `nameplate` and `technicalData` submodels. -/
theorem c10_put_submodel_frame_witness :
    ∃ A : AASModel,
      save_aas
          { id := "1",
            submodels :=
              [("nameplate",
                [("manufacturer", Json.str "Desconhecido"),
                 ("model", Json.str "Desconhecido"),
                 ("serialNumber", Json.str "SN-0000")]),
               ("technicalData", [("power", Json.null), ("weight", Json.null)]),
               ("customSubmodel", [("foo", Json.str "bar")])] }
        = save_aas A
      ∧ A.id = default_aas.id
      ∧ ∀ n, n ≠ "customSubmodel" →
          List.lookup n A.submodels = List.lookup n default_aas.submodels :=
  c10_put_submodel_frame default_aas "1" "customSubmodel"
    (Json.obj [("foo", Json.str "bar")]) "customSubmodel"
    (save_aas
      { id := "1",
        submodels :=
          [("nameplate",
            [("manufacturer", Json.str "Desconhecido"),
             ("model", Json.str "Desconhecido"),
             ("serialNumber", Json.str "SN-0000")]),
           ("technicalData", [("power", Json.null), ("weight", Json.null)]),
           ("customSubmodel", [("foo", Json.str "bar")])] })
    rfl
